import Mathlib

/-!
Shallow embedding of src/src/follow_waypoints/follow_waypoints.py.

The script defines a single class Commander whose mutable state is the list
self.waypoints (PoseWithCovarianceStamped messages) and the boolean
self.path_ready, plus configuration read off the ROS parameter server in
Commander.init.  Side effects (publishing, logging, sending move_base
goals, sleeping) are modelled as an explicit event trace.  Floating point
parameters (wait_duration, waypoint_distance_tolerance) are modelled as
rationals: the code only compares them with 0.
-/

namespace FW

/-- geometry_msgs/Point (also used for Pose.position). -/
structure Point3 where
  x : Rat
  y : Rat
  z : Rat
deriving DecidableEq

/-- geometry_msgs/Quaternion. -/
structure Quaternion where
  x : Rat
  y : Rat
  z : Rat
  w : Rat
deriving DecidableEq

/-- std_msgs/Header: frame id and timestamp. -/
structure Header where
  frame_id : String
  stamp : Nat
deriving DecidableEq

/-- geometry_msgs/Pose. -/
structure Pose where
  position : Point3
  orientation : Quaternion
deriving DecidableEq

/-- geometry_msgs/PoseWithCovariance. -/
structure PoseWithCovariance where
  pose : Pose
  covariance : List Rat
deriving DecidableEq

/-- geometry_msgs/PoseWithCovarianceStamped. -/
structure PoseWithCovarianceStamped where
  header : Header
  pose : PoseWithCovariance
deriving DecidableEq

/-- geometry_msgs/PointStamped. -/
structure PointStamped where
  header : Header
  point : Point3
deriving DecidableEq

/-- geometry_msgs/PoseArray: the visualization snapshot message. -/
structure PoseArray where
  header : Header
  poses : List Pose
deriving DecidableEq

/-- move_base_msgs/MoveBaseGoal as filled in by send_move_base_goal:
target_pose.header.frame_id plus the target pose. -/
structure MoveBaseGoal where
  frame_id : String
  position : Point3
  orientation : Quaternion
deriving DecidableEq

/-- The ROS parameter server, restricted to the typed keys this node reads:
string, float and bool parameters, as association lists. -/
structure ParamServer where
  strs : List (String × String)
  rats : List (String × Rat)
  bools : List (String × Bool)
deriving DecidableEq

/-- rospy.get_param for a string parameter with a default. -/
def get_param_str (ps : ParamServer) (name dflt : String) : String :=
  match List.lookup name ps.strs with
  | some v => v
  | none => dflt

/-- rospy.get_param for a float parameter with a default. -/
def get_param_rat (ps : ParamServer) (name : String) (dflt : Rat) : Rat :=
  match List.lookup name ps.rats with
  | some v => v
  | none => dflt

/-- rospy.get_param for a bool parameter with a default. -/
def get_param_bool (ps : ParamServer) (name : String) (dflt : Bool) : Bool :=
  match List.lookup name ps.bools with
  | some v => v
  | none => dflt

/-- The configuration fields Commander.init stores on self. -/
structure Config where
  frame_id : String
  odom_frame_id : String
  base_frame_id : String
  wait_duration : Rat
  distance_tolerance : Rat
deriving DecidableEq

/-- Commander.init parameter reads: self.frame_id .. self.distance_tolerance. -/
def commander_config (ps : ParamServer) : Config :=
  { frame_id := get_param_str ps "goal_frame_id" "map",
    odom_frame_id := get_param_str ps "odom_frame_id" "odom",
    base_frame_id := get_param_str ps "base_frame_id" "base_footprint",
    wait_duration := get_param_rat ps "wait_duration" 0,
    distance_tolerance := get_param_rat ps "waypoint_distance_tolerance" 0 }

/-- The mutable Commander state: self.waypoints and self.path_ready. -/
structure CmdState where
  waypoints : List PoseWithCovarianceStamped
  path_ready : Bool
deriving DecidableEq

/-- Commander.init: self.waypoints = [], self.path_ready = False. -/
def initCommanderState : CmdState :=
  { waypoints := [], path_ready := false }

/-- Observable side effects of the node, in program order. -/
inductive Event where
  | logWarn : String → Event
  | logInfoAddedWaypoint : Rat → Rat → Nat → Event
  | logInfoFollowing : Nat → Event
  | logInfoExecutingGoal : Rat → Rat → Event
  | logInfoWaiting : Rat → Event
  | publishPoseArray : PoseArray → Event
  | publishCancel : Event
  | sendGoal : MoveBaseGoal → Event
  | waitForResult : Event
  | sleep : Rat → Event
deriving DecidableEq

/-- How run_once ended: normally, or by raising NotImplementedError. -/
inductive RunExit where
  | ok : RunExit
  | notImplemented : RunExit
deriving DecidableEq

/-- toPoseArray: builds the rviz PoseArray.  NOTE the source re-reads the
parameter server here, under the private key tilde-goal_frame_id, on every
call: poses.header.frame_id = rospy.get_param("~goal_frame_id", "map"). -/
def toPoseArray (ps : ParamServer) (waypoints : List PoseWithCovarianceStamped) : PoseArray :=
  { header := { frame_id := get_param_str ps "~goal_frame_id" "map", stamp := 0 },
    poses := waypoints.map (fun pose => pose.pose.pose) }

/-- toPoseWithCov: converts a PointStamped to a PoseWithCovarianceStamped
with the point as position and the explicit quaternion x=y=z=0, w=1; the
covariance stays at the message default (36 zeros). -/
def toPoseWithCov (point : PointStamped) : PoseWithCovarianceStamped :=
  { header := point.header,
    pose := { pose := { position := point.point,
                        orientation := { x := 0, y := 0, z := 0, w := 1 } },
              covariance := List.replicate 36 0 } }

/-- Commander.make_path_ready: sets path_ready and returns (True, ""). -/
def make_path_ready (s : CmdState) : (Bool × String) × CmdState :=
  ((true, ""), { s with path_ready := true })

/-- Commander.do_path_reset: cancels the move_base goal (fire and forget),
then, only if self.waypoints is non-empty, clears it and republishes the
(now empty) pose array; always returns (True, "").  path_ready untouched. -/
def do_path_reset (ps : ParamServer) (s : CmdState) :
    (Bool × String) × CmdState × List Event :=
  let ev0 : List Event :=
    [Event.logWarn "Issuing cancel command to move_base",
     Event.publishCancel,
     Event.logWarn "move_base goal cancelled."]
  if s.waypoints.isEmpty then
    ((true, ""), s, ev0)
  else
    ((true, ""), { s with waypoints := [] },
     ev0 ++ [Event.publishPoseArray (toPoseArray ps [])])

/-- Commander.point_cb: appends the converted point, republishes the whole
queue as a pose array, and logs the new point plus the queue length. -/
def point_cb (ps : ParamServer) (s : CmdState) (point : PointStamped) :
    CmdState × List Event :=
  let ws := s.waypoints ++ [toPoseWithCov point]
  ({ s with waypoints := ws },
   [Event.publishPoseArray (toPoseArray ps ws),
    Event.logInfoAddedWaypoint point.point.x point.point.y ws.length])

/-- Commander.pose_cb: appends the pose message as-is and republishes. -/
def pose_cb (ps : ParamServer) (s : CmdState) (pose : PoseWithCovarianceStamped) :
    CmdState × List Event :=
  let ws := s.waypoints ++ [pose]
  ({ s with waypoints := ws },
   [Event.publishPoseArray (toPoseArray ps ws),
    Event.logInfoAddedWaypoint pose.pose.pose.position.x pose.pose.pose.position.y ws.length])

/-- The MoveBaseGoal assembled by send_move_base_goal: frame id from the
startup configuration, position and orientation copied from the waypoint. -/
def mkGoal (cfg : Config) (pose : PoseWithCovarianceStamped) : MoveBaseGoal :=
  { frame_id := cfg.frame_id,
    position := pose.pose.pose.position,
    orientation := pose.pose.pose.orientation }

/-- Commander.send_move_base_goal: logs the goal then sends it. -/
def send_move_base_goal (cfg : Config) (pose : PoseWithCovarianceStamped) : List Event :=
  [Event.logInfoExecutingGoal pose.pose.pose.position.x pose.pose.pose.position.y,
   Event.sendGoal (mkGoal cfg pose)]

/-- Events of one iteration of the while-loop body in the implemented
(distance_tolerance not > 0) branch: send the goal, block on
wait_for_result, log and sleep wait_duration, republish the remainder. -/
def perGoalTrace (ps : ParamServer) (cfg : Config)
    (goal : PoseWithCovarianceStamped) (rest : List PoseWithCovarianceStamped) : List Event :=
  send_move_base_goal cfg goal ++
    [Event.waitForResult,
     Event.logInfoWaiting cfg.wait_duration,
     Event.sleep cfg.wait_duration,
     Event.publishPoseArray (toPoseArray ps rest)]

/-- The while self.waypoints loop of Commander.run_once.  Each iteration
pops the front, sends it to move_base, and either waits for the result
(tolerance not > 0) or raises NotImplementedError.  Returns the trace, the
final queue, and how the loop ended. -/
def drain (ps : ParamServer) (cfg : Config) :
    List PoseWithCovarianceStamped → List Event × List PoseWithCovarianceStamped × RunExit
  | [] => ([], [], RunExit.ok)
  | goal :: rest =>
    if ¬ cfg.distance_tolerance > 0 then
      let r := drain ps cfg rest
      (perGoalTrace ps cfg goal rest ++ r.1, r.2)
    else
      (send_move_base_goal cfg goal, rest, RunExit.notImplemented)

/-- Commander.run_once: idle 1s sleep when not armed; warn and clear the
armed flag when armed with an empty queue; otherwise drain the queue. -/
def run_once (ps : ParamServer) (cfg : Config) (s : CmdState) :
    CmdState × List Event × RunExit :=
  if s.path_ready = false then
    (s, [Event.sleep 1], RunExit.ok)
  else if s.waypoints.isEmpty then
    ({ s with path_ready := false },
     [Event.logWarn "No more waypoints to follow."], RunExit.ok)
  else
    let r := drain ps cfg s.waypoints
    ({ s with waypoints := r.2.1 },
     Event.logInfoFollowing s.waypoints.length :: r.1, r.2.2)

/-- Commander.run: n iterations of run_once; an uncaught
NotImplementedError propagates and stops the loop. -/
def runSteps (ps : ParamServer) (cfg : Config) :
    CmdState → Nat → CmdState × List Event × RunExit
  | s, 0 => (s, [], RunExit.ok)
  | s, n + 1 =>
    let r := run_once ps cfg s
    match r.2.2 with
    | RunExit.notImplemented => (r.1, r.2.1, RunExit.notImplemented)
    | RunExit.ok =>
      let r2 := runSteps ps cfg r.1 n
      (r2.1, r.2.1 ++ r2.2.1, r2.2.2)

/-- Driving the point callback over a whole sequence of ingestion events. -/
def ingestAll (ps : ParamServer) :
    CmdState → List PointStamped → CmdState × List Event
  | s, [] => (s, [])
  | s, pt :: pts =>
    let r := point_cb ps s pt
    let r2 := ingestAll ps r.1 pts
    (r2.1, r.2 ++ r2.2)

/-- External mutation of the queue that may happen while run_once is blocked
inside wait_for_result: nothing, a path_reset service call, or a point
ingestion. -/
inductive Interf where
  | skip : Interf
  | reset : Interf
  | ingest : PointStamped → Interf
deriving DecidableEq

/-- Effect of one interference on the queue as seen by the dispatch loop
(the handlers run on the shared self.waypoints; path_ready is untouched by
both do_path_reset and point_cb). -/
def applyInterf (ps : ParamServer) : Interf → List PoseWithCovarianceStamped →
    List PoseWithCovarianceStamped × List Event
  | Interf.skip, q => (q, [])
  | Interf.reset, q =>
    let r := do_path_reset ps { waypoints := q, path_ready := true }
    (r.2.1.waypoints, r.2.2)
  | Interf.ingest pt, q =>
    let r := point_cb ps { waypoints := q, path_ready := true } pt
    (r.1.waypoints, r.2)

/-- The drain loop with a schedule of interferences, one consumed at the
wait_for_result suspension point of each iteration; once the schedule is
exhausted the loop continues without interference.  The loop condition
while self.waypoints re-reads the shared queue, so each iteration starts by
checking the possibly externally mutated queue for emptiness. -/
def drainI (ps : ParamServer) (cfg : Config) :
    List PoseWithCovarianceStamped → List Interf →
    List Event × List PoseWithCovarianceStamped × RunExit
  | q, [] => drain ps cfg q
  | [], _ :: _ => ([], [], RunExit.ok)
  | goal :: rest, i :: is =>
    if ¬ cfg.distance_tolerance > 0 then
      let qi := applyInterf ps i rest
      let ev :=
        send_move_base_goal cfg goal ++
          [Event.waitForResult] ++ qi.2 ++
          [Event.logInfoWaiting cfg.wait_duration,
           Event.sleep cfg.wait_duration,
           Event.publishPoseArray (toPoseArray ps qi.1)]
      let r := drainI ps cfg qi.1 is
      (ev ++ r.1, r.2)
    else
      (send_move_base_goal cfg goal, rest, RunExit.notImplemented)

/-- The move_base goals sent in a trace, in order. -/
def sendGoals (evs : List Event) : List MoveBaseGoal :=
  evs.filterMap fun e =>
    match e with
    | Event.sendGoal g => some g
    | _ => none

/-- The PoseArray snapshots published in a trace, in order. -/
def publishedArrays (evs : List Event) : List PoseArray :=
  evs.filterMap fun e =>
    match e with
    | Event.publishPoseArray pa => some pa
    | _ => none

/-- The subtrace of goal dispatches and blocking waits, in order. -/
def sendWaitTrace (evs : List Event) : List Event :=
  evs.filter fun e =>
    match e with
    | Event.sendGoal _ => true
    | Event.waitForResult => true
    | _ => false

/-- State of the latched visualization publisher after a trace: the last
PoseArray published, if any (the prior latched value otherwise). -/
def latchAfter (prior : Option PoseArray) (evs : List Event) : Option PoseArray :=
  evs.foldl
    (fun acc e =>
      match e with
      | Event.publishPoseArray pa => some pa
      | _ => acc)
    prior

/-- Poses shown by the latched publisher: none published yet shows nothing. -/
def posesOfLatched : Option PoseArray → List Pose
  | none => []
  | some pa => pa.poses

/-- The full event trace of draining a queue in the implemented branch. -/
def drainTrace (ps : ParamServer) (cfg : Config) :
    List PoseWithCovarianceStamped → List Event
  | [] => []
  | goal :: rest => perGoalTrace ps cfg goal rest ++ drainTrace ps cfg rest

/-- Concrete fixtures used to instantiate the theorems below. -/
def ps0 : ParamServer := ⟨[], [], []⟩

def cfg0 : Config := commander_config ps0

def cfgT : Config := { cfg0 with distance_tolerance := 1 }

def ptA : PointStamped := ⟨⟨"map", 0⟩, ⟨1, 2, 0⟩⟩

def ptB : PointStamped := ⟨⟨"map", 0⟩, ⟨3, 4, 0⟩⟩

def wpA : PoseWithCovarianceStamped := toPoseWithCov ptA

def wpB : PoseWithCovarianceStamped := toPoseWithCov ptB

def stAB : CmdState := ⟨[wpA, wpB], true⟩

def stE : CmdState := ⟨[], true⟩

lemma drain_no_tol (ps : ParamServer) (cfg : Config)
    (h : ¬ cfg.distance_tolerance > 0) :
    ∀ ws, drain ps cfg ws = (drainTrace ps cfg ws, [], RunExit.ok) := by
  intro ws
  induction ws with
  | nil => rfl
  | cons goal rest ih => simp [drain, drainTrace, h, ih]

lemma sendGoals_append (a b : List Event) :
    sendGoals (a ++ b) = sendGoals a ++ sendGoals b := by
  simp [sendGoals]

lemma publishedArrays_append (a b : List Event) :
    publishedArrays (a ++ b) = publishedArrays a ++ publishedArrays b := by
  simp [publishedArrays]

lemma sendWaitTrace_append (a b : List Event) :
    sendWaitTrace (a ++ b) = sendWaitTrace a ++ sendWaitTrace b := by
  simp [sendWaitTrace]

lemma drainTrace_cons (ps : ParamServer) (cfg : Config)
    (goal : PoseWithCovarianceStamped) (rest : List PoseWithCovarianceStamped) :
    drainTrace ps cfg (goal :: rest) = perGoalTrace ps cfg goal rest ++ drainTrace ps cfg rest :=
  rfl

lemma sendGoals_drainTrace (ps : ParamServer) (cfg : Config) :
    ∀ ws, sendGoals (drainTrace ps cfg ws) = ws.map (mkGoal cfg) := by
  intro ws
  induction ws with
  | nil => rfl
  | cons goal rest ih =>
    rw [drainTrace_cons, sendGoals_append, ih]
    simp [perGoalTrace, send_move_base_goal, sendGoals]

lemma sendWaitTrace_drainTrace (ps : ParamServer) (cfg : Config) :
    ∀ ws, sendWaitTrace (drainTrace ps cfg ws) =
      (ws.map (fun w => [Event.sendGoal (mkGoal cfg w), Event.waitForResult])).flatten := by
  intro ws
  induction ws with
  | nil => rfl
  | cons goal rest ih =>
    rw [drainTrace_cons, sendWaitTrace_append, ih]
    simp [perGoalTrace, send_move_base_goal, sendWaitTrace]

lemma publishedArrays_drainTrace_len (ps : ParamServer) (cfg : Config) :
    ∀ ws, (publishedArrays (drainTrace ps cfg ws)).map (fun pa => pa.poses.length) =
      (List.range ws.length).reverse := by
  intro ws
  induction ws with
  | nil => rfl
  | cons goal rest ih =>
    rw [drainTrace_cons, publishedArrays_append, List.map_append, ih]
    simp [perGoalTrace, send_move_base_goal, publishedArrays, toPoseArray, List.range_succ]

/-- C1: with waypoint_distance_tolerance > 0 and the loop armed on a
non-empty queue, run_once ends by raising NotImplementedError, its trace
never reaches the wait-for-result call, and the outer loop halts there:
every longer run produces no events beyond that failing iteration. -/
theorem C1_distance_tolerance_fatal (ps : ParamServer) (cfg : Config) (s : CmdState)
    (htol : cfg.distance_tolerance > 0) (harm : s.path_ready = true)
    (hne : s.waypoints ≠ []) :
    (run_once ps cfg s).2.2 = RunExit.notImplemented
    ∧ Event.waitForResult ∉ (run_once ps cfg s).2.1
    ∧ ∀ n, (runSteps ps cfg s (n + 1)).2.2 = RunExit.notImplemented
      ∧ (runSteps ps cfg s (n + 1)).2.1 = (run_once ps cfg s).2.1 := by
  obtain ⟨g, rest, hq⟩ : ∃ g rest, s.waypoints = g :: rest := by
    cases h : s.waypoints with
    | nil => exact absurd h hne
    | cons a l => exact ⟨a, l, rfl⟩
  refine ⟨?_, ?_, ?_⟩
  · simp [run_once, harm, hq, drain, htol]
  · simp [run_once, harm, hq, drain, htol, send_move_base_goal]
  · intro n
    constructor <;> simp [runSteps, run_once, harm, hq, drain, htol]

/-- C10: when distance_tolerance > 0 and the loop is armed on a non-empty
queue, the head waypoint is popped and its move_base goal sent before the
NotImplementedError: the failing run_once still mutates the queue and
performs one external dispatch. -/
theorem C10_pop_and_send_before_raise (ps : ParamServer) (cfg : Config) (s : CmdState)
    (g : PoseWithCovarianceStamped) (rest : List PoseWithCovarianceStamped)
    (htol : cfg.distance_tolerance > 0) (harm : s.path_ready = true)
    (hq : s.waypoints = g :: rest) :
    sendGoals (run_once ps cfg s).2.1 = [mkGoal cfg g]
    ∧ (run_once ps cfg s).1.waypoints = rest
    ∧ (run_once ps cfg s).2.2 = RunExit.notImplemented := by
  refine ⟨?_, ?_, ?_⟩ <;>
    simp [run_once, harm, hq, drain, htol, sendGoals, send_move_base_goal]

/-- C6: arming with an empty queue makes the next run_once log a warning,
clear the armed flag, leave the queue empty, send no navigation goal, and
return to idle. -/
theorem C6_empty_arm_idle (ps : ParamServer) (cfg : Config) (s : CmdState)
    (harm : s.path_ready = true) (hemp : s.waypoints = []) :
    run_once ps cfg s =
      ({ s with path_ready := false },
       [Event.logWarn "No more waypoints to follow."], RunExit.ok)
    ∧ sendGoals (run_once ps cfg s).2.1 = [] := by
  constructor <;> simp [run_once, harm, hemp, sendGoals]

/-- C7: do_path_reset leaves the armed flag (path_ready) unchanged,
whatever its value and whatever the queue holds. -/
theorem C7_reset_keeps_armed (ps : ParamServer) (s : CmdState) :
    (do_path_reset ps s).2.1.path_ready = s.path_ready := by
  by_cases h : s.waypoints.isEmpty <;> simp [do_path_reset, h]

lemma sendGoals_cons_log (n : Nat) (evs : List Event) :
    sendGoals (Event.logInfoFollowing n :: evs) = sendGoals evs := by
  simp [sendGoals]

lemma sendWaitTrace_cons_log (n : Nat) (evs : List Event) :
    sendWaitTrace (Event.logInfoFollowing n :: evs) = sendWaitTrace evs := by
  simp [sendWaitTrace]

lemma publishedArrays_cons_log (n : Nat) (evs : List Event) :
    publishedArrays (Event.logInfoFollowing n :: evs) = publishedArrays evs := by
  simp [publishedArrays]

lemma run_once_drain (ps : ParamServer) (cfg : Config) (s : CmdState)
    (harm : s.path_ready = true) (hne : s.waypoints ≠ [])
    (hnot : ¬ cfg.distance_tolerance > 0) :
    run_once ps cfg s =
      ({ s with waypoints := [] },
       Event.logInfoFollowing s.waypoints.length :: drainTrace ps cfg s.waypoints,
       RunExit.ok) := by
  have hemp : s.waypoints.isEmpty = false := by
    cases h : s.waypoints with
    | nil => exact absurd h hne
    | cons a l => rfl
  simp [run_once, harm, hemp, drain_no_tol ps cfg hnot]

/-- C4: arming on a queue of N ≥ 1 waypoints with distance tolerance 0
dispatches exactly the N queued goals in order, each send immediately
followed by the blocking wait for completion before the next send, while
the successive republished snapshots have lengths N-1, N-2, ..., 0 (the
queue shrinks by one per dispatch); the episode ends normally with an
empty queue. -/
theorem C4_drain_dispatches (ps : ParamServer) (cfg : Config) (s : CmdState)
    (hN : 1 ≤ s.waypoints.length) (harm : s.path_ready = true)
    (htol : cfg.distance_tolerance = 0) :
    sendGoals (run_once ps cfg s).2.1 = s.waypoints.map (mkGoal cfg)
    ∧ sendWaitTrace (run_once ps cfg s).2.1 =
        (s.waypoints.map (fun w => [Event.sendGoal (mkGoal cfg w), Event.waitForResult])).flatten
    ∧ (publishedArrays (run_once ps cfg s).2.1).map (fun pa => pa.poses.length) =
        (List.range s.waypoints.length).reverse
    ∧ (run_once ps cfg s).1.waypoints = []
    ∧ (run_once ps cfg s).2.2 = RunExit.ok := by
  have hnot : ¬ cfg.distance_tolerance > 0 := by simp [htol]
  have hne : s.waypoints ≠ [] := by
    intro h
    rw [h] at hN
    simp at hN
  rw [run_once_drain ps cfg s harm hne hnot]
  refine ⟨?_, ?_, ?_, rfl, rfl⟩
  · rw [sendGoals_cons_log, sendGoals_drainTrace]
  · rw [sendWaitTrace_cons_log, sendWaitTrace_drainTrace]
  · rw [publishedArrays_cons_log, publishedArrays_drainTrace_len]

/-- C2 counterexample: a reset that arrives after the final in-flight
dispatch has popped the queue empty does not leave an empty published
snapshot.  Ingesting ptA latches a one-pose snapshot; the drain loop pops
wpA before blocking, so the reset handler runs on an empty queue (exactly
the interference applyInterf models for the in-flight wait), skips the
republish, still returns (True, "") with an empty queue — and the latched
snapshot still shows the stale pose, refuting the claim's "empty published
visualization snapshot regardless of prior state". -/
theorem C2_counterexample :
    latchAfter none (point_cb ps0 initCommanderState ptA).2 = some (toPoseArray ps0 [wpA])
    ∧ applyInterf ps0 Interf.reset [] = ([], (do_path_reset ps0 ⟨[], true⟩).2.2)
    ∧ (do_path_reset ps0 ⟨[], true⟩).1 = (true, "")
    ∧ (do_path_reset ps0 ⟨[], true⟩).2.1.waypoints = []
    ∧ posesOfLatched
        (latchAfter (some (toPoseArray ps0 [wpA])) (do_path_reset ps0 ⟨[], true⟩).2.2)
        = [wpA.pose.pose]
    ∧ [wpA.pose.pose] ≠ [] := by
  decide

/-- C2 amended: do_path_reset always returns (True, ""), always leaves the
queue empty, and (being a total function of the model) raises nothing; but
it republishes the empty snapshot only when the queue was non-empty at the
time of the call — when the queue was already empty, as when a reset
arrives while the final in-flight dispatch has already popped it, the
republish is skipped and the latched snapshot keeps its prior, possibly
non-empty, value. -/
theorem C2_amended_reset (ps : ParamServer) (s : CmdState) (prior : Option PoseArray) :
    (do_path_reset ps s).1 = (true, "")
    ∧ (do_path_reset ps s).2.1.waypoints = []
    ∧ latchAfter prior (do_path_reset ps s).2.2 =
        (if s.waypoints.isEmpty then prior else some (toPoseArray ps []))
    ∧ (toPoseArray ps []).poses = [] := by
  by_cases h : s.waypoints.isEmpty
  · have hnil : s.waypoints = [] := by simpa using h
    refine ⟨?_, ?_, ?_, rfl⟩ <;> simp [do_path_reset, h, latchAfter, hnil]
  · refine ⟨?_, ?_, ?_, rfl⟩ <;> simp [do_path_reset, h, latchAfter]

lemma runSteps_empty_queue (ps : ParamServer) (cfg : Config) :
    ∀ n s, s.waypoints = [] →
      sendGoals (runSteps ps cfg s n).2.1 = []
      ∧ (runSteps ps cfg s n).1.waypoints = [] := by
  intro n
  induction n with
  | zero =>
    intro s h
    exact ⟨rfl, h⟩
  | succ n ih =>
    intro s h
    by_cases hp : s.path_ready = false
    · have hr : run_once ps cfg s = (s, [Event.sleep 1], RunExit.ok) := by
        simp [run_once, hp]
      have h1 : runSteps ps cfg s (n + 1) =
          ((runSteps ps cfg s n).1,
           [Event.sleep 1] ++ (runSteps ps cfg s n).2.1,
           (runSteps ps cfg s n).2.2) := by
        simp [runSteps, hr]
      rw [h1]
      refine ⟨?_, (ih s h).2⟩
      show sendGoals ([Event.sleep 1] ++ (runSteps ps cfg s n).2.1) = []
      rw [sendGoals_append, (ih s h).1]
      rfl
    · have harm : s.path_ready = true := by
        cases hv : s.path_ready
        · exact absurd hv hp
        · rfl
      have hr : run_once ps cfg s =
          ({ s with path_ready := false },
           [Event.logWarn "No more waypoints to follow."], RunExit.ok) := by
        simp [run_once, harm, h]
      have h1 : runSteps ps cfg s (n + 1) =
          ((runSteps ps cfg { s with path_ready := false } n).1,
           [Event.logWarn "No more waypoints to follow."] ++
             (runSteps ps cfg { s with path_ready := false } n).2.1,
           (runSteps ps cfg { s with path_ready := false } n).2.2) := by
        simp [runSteps, hr]
      rw [h1]
      refine ⟨?_, (ih { s with path_ready := false } h).2⟩
      show sendGoals ([Event.logWarn "No more waypoints to follow."] ++
        (runSteps ps cfg { s with path_ready := false } n).2.1) = []
      rw [sendGoals_append, (ih { s with path_ready := false } h).1]
      rfl

/-- C8: once the queue is fully drained by an armed run_once episode
(tolerance 0), the following loop iteration clears the armed flag, leaves
the queue empty, and from the drained state no later iteration ever sends
another navigation goal. -/
theorem C8_drained_idle (ps : ParamServer) (cfg : Config) (s : CmdState)
    (harm : s.path_ready = true) (hne : s.waypoints ≠ [])
    (htol : cfg.distance_tolerance = 0) :
    (run_once ps cfg s).1.waypoints = []
    ∧ (run_once ps cfg (run_once ps cfg s).1).1.path_ready = false
    ∧ (run_once ps cfg (run_once ps cfg s).1).1.waypoints = []
    ∧ ∀ n, sendGoals (runSteps ps cfg (run_once ps cfg s).1 n).2.1 = [] := by
  have hnot : ¬ cfg.distance_tolerance > 0 := by simp [htol]
  rw [run_once_drain ps cfg s harm hne hnot]
  refine ⟨rfl, ?_, ?_, ?_⟩
  · simp [run_once, harm]
  · simp [run_once, harm]
  · intro n
    exact (runSteps_empty_queue ps cfg n _ rfl).1

lemma drainI_nil (ps : ParamServer) (cfg : Config) :
    ∀ sch, drainI ps cfg [] sch = ([], [], RunExit.ok) := by
  intro sch
  cases sch with
  | nil => rfl
  | cons i is => rfl

/-- C9: the drain loop re-checks the shared queue before every pop, so it
never pops an empty queue: started on an empty queue it exits at once with
no dispatch and no error, and when a concurrent path_reset empties the
queue during the in-flight dispatch's blocking wait, the loop dispatches
only that one goal and then exits normally, treating emptiness as
exhaustion. -/
theorem C9_no_pop_empty (ps : ParamServer) (cfg : Config)
    (g : PoseWithCovarianceStamped) (rest : List PoseWithCovarianceStamped)
    (sch : List Interf) (htol : cfg.distance_tolerance = 0) :
    (∀ sch2, drainI ps cfg [] sch2 = ([], [], RunExit.ok))
    ∧ sendGoals (drainI ps cfg (g :: rest) (Interf.reset :: sch)).1 = [mkGoal cfg g]
    ∧ (drainI ps cfg (g :: rest) (Interf.reset :: sch)).2.2 = RunExit.ok
    ∧ (drainI ps cfg (g :: rest) (Interf.reset :: sch)).2.1 = [] := by
  have hnot : ¬ cfg.distance_tolerance > 0 := by simp [htol]
  refine ⟨drainI_nil ps cfg, ?_, ?_, ?_⟩ <;>
  · by_cases hr : rest.isEmpty
    · have hnil : rest = [] := by simpa using hr
      simp [drainI, hnot, applyInterf, do_path_reset, hr, hnil, drainI_nil,
        sendGoals_append, sendGoals, send_move_base_goal]
    · simp [drainI, hnot, applyInterf, do_path_reset, hr, drainI_nil,
        sendGoals_append, sendGoals, send_move_base_goal]

lemma ingestAll_published (ps : ParamServer) :
    ∀ (pts : List PointStamped) (s : CmdState),
      (publishedArrays (ingestAll ps s pts).2).map (fun pa => pa.poses) =
        (List.range pts.length).map
          (fun k => (s.waypoints ++ (pts.take (k + 1)).map toPoseWithCov).map
            (fun w => w.pose.pose)) := by
  intro pts
  induction pts with
  | nil =>
    intro s
    rfl
  | cons pt rest ih =>
    intro s
    have hstep : (ingestAll ps s (pt :: rest)).2 =
        (point_cb ps s pt).2 ++ (ingestAll ps (point_cb ps s pt).1 rest).2 := rfl
    rw [hstep, publishedArrays_append, List.map_append]
    have hhead : (publishedArrays (point_cb ps s pt).2).map (fun pa => pa.poses) =
        [(s.waypoints ++ [toPoseWithCov pt]).map (fun w => w.pose.pose)] := by
      simp [point_cb, publishedArrays, toPoseArray]
    rw [hhead, ih]
    simp only [point_cb]
    simp [List.range_succ_eq_map, List.map_map, Function.comp, List.take_succ_cons,
      List.append_assoc]

/-- C5: driving the point callback from the initial state over any sequence
of bare points, the snapshot published by the k-th event shows exactly the
first k+1 ingested points, converted in arrival order (so its length equals
the number of events so far); each conversion keeps the point's position
and attaches the identity quaternion x=y=z=0, w=1. -/
theorem C5_ingest_snapshots (ps : ParamServer) (pts : List PointStamped) :
    (publishedArrays (ingestAll ps initCommanderState pts).2).map (fun pa => pa.poses) =
      (List.range pts.length).map
        (fun k => ((pts.take (k + 1)).map toPoseWithCov).map (fun w => w.pose.pose))
    ∧ ∀ pt : PointStamped,
        (toPoseWithCov pt).pose.pose.orientation = ⟨0, 0, 0, 1⟩
        ∧ (toPoseWithCov pt).pose.pose.position = pt.point := by
  refine ⟨?_, fun pt => ⟨rfl, rfl⟩⟩
  simpa [initCommanderState] using ingestAll_published ps pts initCommanderState

def psW : ParamServer := ⟨[("goal_frame_id", "world")], [], []⟩

def ptW : PointStamped := ⟨⟨"world", 0⟩, ⟨1, 2, 0⟩⟩

/-- C3 counterexample: with the parameter server holding goal_frame_id =
"world" and no private ~goal_frame_id key, the startup configuration's goal
frame is "world", yet the snapshot published by the point callback carries
frame id "map": toPoseArray re-reads the parameter server (under the
private key, which falls back to the default) at every publication instead
of using the configuration loaded at startup. -/
theorem C3_counterexample :
    (commander_config psW).frame_id = "world"
    ∧ (publishedArrays (point_cb psW initCommanderState ptW).2).map
        (fun pa => pa.header.frame_id) = ["map"]
    ∧ ¬ ∀ pa ∈ publishedArrays (point_cb psW initCommanderState ptW).2,
        pa.header.frame_id = (commander_config psW).frame_id := by
  decide

lemma frame_drain (ps : ParamServer) (cfg : Config) :
    ∀ ws pa, pa ∈ publishedArrays (drain ps cfg ws).1 →
      pa.header.frame_id = get_param_str ps "~goal_frame_id" "map" := by
  intro ws
  induction ws with
  | nil =>
    intro pa h
    simp [drain, publishedArrays] at h
  | cons g rest ih =>
    intro pa h
    by_cases ht : cfg.distance_tolerance > 0
    · have hd : (drain ps cfg (g :: rest)).1 = send_move_base_goal cfg g := by
        simp [drain, ht]
      rw [hd] at h
      simp [send_move_base_goal, publishedArrays] at h
    · have hd : (drain ps cfg (g :: rest)).1 =
          perGoalTrace ps cfg g rest ++ (drain ps cfg rest).1 := by
        simp [drain, ht]
      rw [hd, publishedArrays_append, List.mem_append] at h
      rcases h with h | h
      · have hp : publishedArrays (perGoalTrace ps cfg g rest) = [toPoseArray ps rest] := by
          simp [perGoalTrace, send_move_base_goal, publishedArrays]
        rw [hp, List.mem_singleton] at h
        rw [h]
        rfl
      · exact ih pa h

/-- C3 amended: every snapshot published by the point callback, the reset
handler, or a run_once iteration carries a frame id re-read from the
parameter server under the private key ~goal_frame_id (default "map") at
publication time — not the goal_frame_id value stored in the configuration
at startup, from which it can differ. -/
theorem C3_amended_frame_reread (ps : ParamServer) (cfg : Config) (s : CmdState)
    (pt : PointStamped) (pa : PoseArray)
    (hpa : pa ∈ publishedArrays
      ((point_cb ps s pt).2 ++ (do_path_reset ps s).2.2 ++ (run_once ps cfg s).2.1)) :
    pa.header.frame_id = get_param_str ps "~goal_frame_id" "map" := by
  rw [publishedArrays_append, publishedArrays_append, List.mem_append, List.mem_append] at hpa
  rcases hpa with (h | h) | h
  · have hp : publishedArrays (point_cb ps s pt).2 =
        [toPoseArray ps (s.waypoints ++ [toPoseWithCov pt])] := by
      simp [point_cb, publishedArrays]
    rw [hp, List.mem_singleton] at h
    rw [h]
    rfl
  · by_cases he : s.waypoints.isEmpty
    · have hp : publishedArrays (do_path_reset ps s).2.2 = [] := by
        simp [do_path_reset, he, publishedArrays]
      rw [hp] at h
      simp at h
    · have hp : publishedArrays (do_path_reset ps s).2.2 = [toPoseArray ps []] := by
        simp [do_path_reset, he, publishedArrays]
      rw [hp, List.mem_singleton] at h
      rw [h]
      rfl
  · by_cases hp : s.path_ready = false
    · have h0 : publishedArrays (run_once ps cfg s).2.1 = [] := by
        simp [run_once, hp, publishedArrays]
      rw [h0] at h
      simp at h
    · have harm : s.path_ready = true := by
        cases hv : s.path_ready
        · exact absurd hv hp
        · rfl
      by_cases he : s.waypoints.isEmpty
      · have h0 : publishedArrays (run_once ps cfg s).2.1 = [] := by
          simp [run_once, harm, he, publishedArrays]
        rw [h0] at h
        simp at h
      · have hro : (run_once ps cfg s).2.1 =
            Event.logInfoFollowing s.waypoints.length :: (drain ps cfg s.waypoints).1 := by
          simp [run_once, harm, he]
        rw [hro, publishedArrays_cons_log] at h
        exact frame_drain ps cfg s.waypoints pa h

/-- C1 witness: tolerance 1, armed, two queued waypoints. -/
theorem C1_witness :
    cfgT.distance_tolerance > 0 ∧ stAB.path_ready = true ∧ stAB.waypoints ≠ []
    ∧ ((run_once ps0 cfgT stAB).2.2 = RunExit.notImplemented
       ∧ Event.waitForResult ∉ (run_once ps0 cfgT stAB).2.1
       ∧ ∀ n, (runSteps ps0 cfgT stAB (n + 1)).2.2 = RunExit.notImplemented
         ∧ (runSteps ps0 cfgT stAB (n + 1)).2.1 = (run_once ps0 cfgT stAB).2.1) :=
  ⟨by decide, by decide, by decide,
   C1_distance_tolerance_fatal ps0 cfgT stAB (by decide) (by decide) (by decide)⟩

/-- C3 witness: the snapshot published while ingesting ptW carries the
re-read parameter value. -/
theorem C3_witness :
    (toPoseArray psW [toPoseWithCov ptW]) ∈ publishedArrays
        ((point_cb psW initCommanderState ptW).2 ++ (do_path_reset psW initCommanderState).2.2
          ++ (run_once psW (commander_config psW) initCommanderState).2.1)
    ∧ (toPoseArray psW [toPoseWithCov ptW]).header.frame_id =
        get_param_str psW "~goal_frame_id" "map" :=
  ⟨by decide,
   C3_amended_frame_reread psW (commander_config psW) initCommanderState ptW
     (toPoseArray psW [toPoseWithCov ptW]) (by decide)⟩

/-- C4 witness: an armed two-waypoint queue at tolerance 0. -/
theorem C4_witness :
    1 ≤ stAB.waypoints.length ∧ stAB.path_ready = true ∧ cfg0.distance_tolerance = 0
    ∧ (sendGoals (run_once ps0 cfg0 stAB).2.1 = stAB.waypoints.map (mkGoal cfg0)
       ∧ sendWaitTrace (run_once ps0 cfg0 stAB).2.1 =
           (stAB.waypoints.map
             (fun w => [Event.sendGoal (mkGoal cfg0 w), Event.waitForResult])).flatten
       ∧ (publishedArrays (run_once ps0 cfg0 stAB).2.1).map (fun pa => pa.poses.length) =
           (List.range stAB.waypoints.length).reverse
       ∧ (run_once ps0 cfg0 stAB).1.waypoints = []
       ∧ (run_once ps0 cfg0 stAB).2.2 = RunExit.ok) :=
  ⟨by decide, by decide, by decide,
   C4_drain_dispatches ps0 cfg0 stAB (by decide) (by decide) (by decide)⟩

/-- C6 witness: armed with an empty queue. -/
theorem C6_witness :
    stE.path_ready = true ∧ stE.waypoints = []
    ∧ (run_once ps0 cfg0 stE =
        ({ stE with path_ready := false },
         [Event.logWarn "No more waypoints to follow."], RunExit.ok)
       ∧ sendGoals (run_once ps0 cfg0 stE).2.1 = []) :=
  ⟨by decide, by decide, C6_empty_arm_idle ps0 cfg0 stE (by decide) (by decide)⟩

/-- C8 witness: drained two-waypoint episode at tolerance 0. -/
theorem C8_witness :
    stAB.path_ready = true ∧ stAB.waypoints ≠ [] ∧ cfg0.distance_tolerance = 0
    ∧ ((run_once ps0 cfg0 stAB).1.waypoints = []
       ∧ (run_once ps0 cfg0 (run_once ps0 cfg0 stAB).1).1.path_ready = false
       ∧ (run_once ps0 cfg0 (run_once ps0 cfg0 stAB).1).1.waypoints = []
       ∧ ∀ n, sendGoals (runSteps ps0 cfg0 (run_once ps0 cfg0 stAB).1 n).2.1 = []) :=
  ⟨by decide, by decide, by decide,
   C8_drained_idle ps0 cfg0 stAB (by decide) (by decide) (by decide)⟩

/-- C9 witness: a reset fires during the first dispatch of a two-waypoint
queue. -/
theorem C9_witness :
    cfg0.distance_tolerance = 0
    ∧ ((∀ sch2, drainI ps0 cfg0 [] sch2 = ([], [], RunExit.ok))
       ∧ sendGoals (drainI ps0 cfg0 (wpA :: [wpB]) (Interf.reset :: [])).1 = [mkGoal cfg0 wpA]
       ∧ (drainI ps0 cfg0 (wpA :: [wpB]) (Interf.reset :: [])).2.2 = RunExit.ok
       ∧ (drainI ps0 cfg0 (wpA :: [wpB]) (Interf.reset :: [])).2.1 = []) :=
  ⟨by decide, C9_no_pop_empty ps0 cfg0 wpA [wpB] [] (by decide)⟩

/-- C10 witness: tolerance 1, armed, two queued waypoints. -/
theorem C10_witness :
    cfgT.distance_tolerance > 0 ∧ stAB.path_ready = true ∧ stAB.waypoints = wpA :: [wpB]
    ∧ (sendGoals (run_once ps0 cfgT stAB).2.1 = [mkGoal cfgT wpA]
       ∧ (run_once ps0 cfgT stAB).1.waypoints = [wpB]
       ∧ (run_once ps0 cfgT stAB).2.2 = RunExit.notImplemented) :=
  ⟨by decide, by decide, by decide,
   C10_pop_and_send_before_raise ps0 cfgT stAB wpA [wpB] (by decide) (by decide) (by decide)⟩

end FW
